import Mathlib

/-!
Verification of the safemem crate (src/lib.rs): safe wrappers around the
unchecked bulk-memory primitives `std::ptr::copy` (memmove semantics) and
`std::ptr::write_bytes` (memset semantics) over a mutable slice, guarded by
assert-based bounds and overflow checks.

Embedding conventions:
* a slice is a Lean list; the element type of `copy` is an arbitrary type,
  matching the `T: Copy` genericity of the source;
* `usize` arithmetic is `Nat` together with the bound `USIZE_MAX`;
  `usize::checked_add` returns `none` exactly when the mathematical sum
  exceeds `USIZE_MAX`;
* a panicking `assert!`/`expect` is modelled by returning `Except.error`
  carrying the identity of the panic message at the corresponding call site,
  together with the values the Rust format string interpolates;
* `u8` is `Fin 256`.
-/

namespace Safemem

/-- Maximum value of the `usize` index type on a 64-bit target. -/
def USIZE_MAX : Nat := 2 ^ 64 - 1

/-- Rust `usize::checked_add`: the sum, unless it exceeds `USIZE_MAX`. -/
def checked_add (a b : Nat) : Option Nat :=
  if a + b ≤ USIZE_MAX then some (a + b) else none

/-- The panic diagnostics of `copy`, one constructor per `assert!`/`expect`
call site in the `idx_check!` and `len_check!` macros, carrying the values the
Rust format string interpolates. `srcIdxOutOfBounds`/`destIdxOutOfBounds`
come from `idx_check!` (index and slice length), `srcOverflow`/`destOverflow`
from the `expect` on `checked_add` inside `len_check!`, and
`srcLenOutOfBounds`/`destLenOutOfBounds` from the `assert!` in `len_check!`
(length, start index, slice length). -/
inductive CopyError where
  | srcIdxOutOfBounds (idx n : Nat)
  | destIdxOutOfBounds (idx n : Nat)
  | srcOverflow
  | destOverflow
  | srcLenOutOfBounds (len start n : Nat)
  | destLenOutOfBounds (len start n : Nat)
  deriving DecidableEq

/-- Whether a diagnostic is the overflow-specific one (the `expect` message on
`checked_add` inside `len_check!`). -/
def CopyError.isOverflow : CopyError → Bool
  | .srcOverflow => true
  | .destOverflow => true
  | _ => false

/-- Whether a diagnostic comes from `idx_check!` (the strict index bound). -/
def CopyError.isIdxCheck : CopyError → Bool
  | .srcIdxOutOfBounds _ _ => true
  | .destIdxOutOfBounds _ _ => true
  | _ => false

/-- Semantics of `std::ptr::copy` (memmove): the `len` elements starting at
`src_idx` behave as if first read in full and then written at `dest_idx`,
i.e. as if copied through a temporary buffer. -/
def ptrCopy (l : List α) (src_idx dest_idx len : Nat) : List α :=
  l.take dest_idx ++ (l.drop src_idx).take len ++ l.drop (dest_idx + len)

/-- `safemem::copy`: runs `idx_check!` on `src_idx` then on `dest_idx`, then
`len_check!` on `src_idx, len` then on `dest_idx, len` (each `len_check!`
first unwraps `checked_add`, then compares the end bound against the slice
length), and only then performs the single `ptr::copy`. A failed check panics,
modelled as `Except.error` with that check's diagnostic. -/
def copy (slice : List α) (src_idx dest_idx len : Nat) : Except CopyError (List α) :=
  if src_idx < slice.length then
    if dest_idx < slice.length then
      match checked_add src_idx len with
      | none => .error .srcOverflow
      | some srcEnd =>
        if srcEnd ≤ slice.length then
          match checked_add dest_idx len with
          | none => .error .destOverflow
          | some destEnd =>
            if destEnd ≤ slice.length then
              .ok (ptrCopy slice src_idx dest_idx len)
            else .error (.destLenOutOfBounds len dest_idx slice.length)
        else .error (.srcLenOutOfBounds len src_idx slice.length)
    else .error (.destIdxOutOfBounds dest_idx slice.length)
  else .error (.srcIdxOutOfBounds src_idx slice.length)

/-- The slice the caller observes after the call returns or panics: all four
checks in `copy` run before the single `ptr::copy` write, so on panic the
slice is untouched. -/
def copyPost (slice : List α) (src_idx dest_idx len : Nat) : List α :=
  match copy slice src_idx dest_idx len with
  | .ok r => r
  | .error _ => slice

/-- `safemem::write_bytes`: `ptr::write_bytes(slice.as_mut_ptr(), byte,
slice.len())`, setting every element of the `u8` slice to `byte`. -/
def write_bytes (slice : List (Fin 256)) (byte : Fin 256) : List (Fin 256) :=
  List.replicate slice.length byte

/-- Reference result stated by the spec for overlap-correctness: first copy
the source range into a temporary buffer, then write that buffer into the
destination range. -/
def spec_copy_via_temp (l : List α) (src_idx dest_idx len : Nat) : List α :=
  let temp := (l.drop src_idx).take len
  l.take dest_idx ++ temp ++ l.drop (dest_idx + len)

/-! Helper lemmas characterising which branch of `copy` is taken. -/

theorem copy_ok_of_checks (l : List α) (s d n : Nat)
    (h1 : s < l.length) (h2 : d < l.length)
    (h3 : s + n ≤ USIZE_MAX) (h4 : s + n ≤ l.length)
    (h5 : d + n ≤ USIZE_MAX) (h6 : d + n ≤ l.length) :
    copy l s d n = .ok (ptrCopy l s d n) := by
  simp [copy, checked_add, h1, h2, h3, h4, h5, h6]

theorem copy_err_srcIdx (l : List α) (s d n : Nat) (h1 : ¬ s < l.length) :
    copy l s d n = .error (.srcIdxOutOfBounds s l.length) := by
  simp [copy, h1]

theorem copy_err_destIdx (l : List α) (s d n : Nat)
    (h1 : s < l.length) (h2 : ¬ d < l.length) :
    copy l s d n = .error (.destIdxOutOfBounds d l.length) := by
  simp [copy, h1, h2]

theorem copy_err_srcOverflow (l : List α) (s d n : Nat)
    (h1 : s < l.length) (h2 : d < l.length) (h3 : ¬ s + n ≤ USIZE_MAX) :
    copy l s d n = .error .srcOverflow := by
  simp [copy, checked_add, h1, h2, h3]

theorem copy_err_srcLen (l : List α) (s d n : Nat)
    (h1 : s < l.length) (h2 : d < l.length)
    (h3 : s + n ≤ USIZE_MAX) (h4 : ¬ s + n ≤ l.length) :
    copy l s d n = .error (.srcLenOutOfBounds n s l.length) := by
  simp [copy, checked_add, h1, h2, h3, h4]

theorem copy_err_destOverflow (l : List α) (s d n : Nat)
    (h1 : s < l.length) (h2 : d < l.length)
    (h3 : s + n ≤ USIZE_MAX) (h4 : s + n ≤ l.length)
    (h5 : ¬ d + n ≤ USIZE_MAX) :
    copy l s d n = .error .destOverflow := by
  simp [copy, checked_add, h1, h2, h3, h4, h5]

theorem copy_err_destLen (l : List α) (s d n : Nat)
    (h1 : s < l.length) (h2 : d < l.length)
    (h3 : s + n ≤ USIZE_MAX) (h4 : s + n ≤ l.length)
    (h5 : d + n ≤ USIZE_MAX) (h6 : ¬ d + n ≤ l.length) :
    copy l s d n = .error (.destLenOutOfBounds n d l.length) := by
  simp [copy, checked_add, h1, h2, h3, h4, h5, h6]

theorem copyPost_of_error (l : List α) (s d n : Nat) (e : CopyError)
    (he : copy l s d n = .error e) : copyPost l s d n = l := by
  simp [copyPost, he]

theorem ptrCopy_same (l : List α) (s n : Nat) : ptrCopy l s s n = l := by
  have hdd : (l.drop s).drop n = l.drop (s + n) := by
    rw [List.drop_drop, Nat.add_comm]
  rw [ptrCopy, ← hdd, List.append_assoc, List.take_append_drop,
    List.take_append_drop]

theorem ptrCopy_len_zero (l : List α) (s d : Nat) : ptrCopy l s d 0 = l := by
  simp [ptrCopy, List.take_append_drop]

/-! The claims. -/

/-- C1: for every region and all arguments satisfying the bounds invariants
(both indices in bounds, both end bounds within the length, neither addition
overflowing), `copy` succeeds and returns the copy-through-a-temporary-buffer
reference result, for arbitrarily overlapping ranges; in particular on
`[0,1,2,3,4,5]` with src 0, dest 2, len 3 the result is `[0,1,0,1,2,5]`. -/
theorem claim_C1 (α : Type) (l : List α) (s d n : Nat)
    (h1 : s < l.length) (h2 : d < l.length)
    (h3 : s + n ≤ l.length) (h4 : d + n ≤ l.length)
    (h5 : s + n ≤ USIZE_MAX) (h6 : d + n ≤ USIZE_MAX) :
    copy l s d n = .ok (spec_copy_via_temp l s d n) ∧
    copy ([0, 1, 2, 3, 4, 5] : List Nat) 0 2 3 = .ok [0, 1, 0, 1, 2, 5] := by
  refine ⟨?_, by rfl⟩
  rw [copy_ok_of_checks l s d n h1 h2 h5 h3 h6 h4]
  rfl

theorem claim_C1_witness :
    copy ([0, 1, 2, 3, 4, 5] : List Nat) 0 2 3 = .ok [0, 1, 0, 1, 2, 5] :=
  (claim_C1 Nat [0, 1, 2, 3, 4, 5] 0 2 3 (by decide) (by decide) (by decide)
    (by decide) (by decide) (by decide)).2

/-- C2: every argument combination violating a precondition (an index out of
bounds, an end bound past the length, or an overflowing end-bound addition)
makes `copy` abort before mutating anything, leaving the region identical to
its pre-call state; in particular `[0,1,2,3,4,5]` with src 2, dest 1, len 7
aborts with the region unmodified. -/
theorem claim_C2 (α : Type) (l : List α) (s d n : Nat)
    (h : l.length ≤ s ∨ l.length ≤ d ∨ l.length < s + n ∨ l.length < d + n ∨
      USIZE_MAX < s + n ∨ USIZE_MAX < d + n) :
    (∃ e, copy l s d n = .error e) ∧ copyPost l s d n = l ∧
    (∃ e, copy ([0, 1, 2, 3, 4, 5] : List Nat) 2 1 7 = .error e) ∧
    copyPost ([0, 1, 2, 3, 4, 5] : List Nat) 2 1 7 = [0, 1, 2, 3, 4, 5] := by
  have herr : ∃ e, copy l s d n = .error e := by
    by_cases h1 : s < l.length
    · by_cases h2 : d < l.length
      · by_cases h3 : s + n ≤ USIZE_MAX
        · by_cases h4 : s + n ≤ l.length
          · by_cases h5 : d + n ≤ USIZE_MAX
            · by_cases h6 : d + n ≤ l.length
              · exfalso
                rcases h with h | h | h | h | h | h <;> omega
              · exact ⟨_, copy_err_destLen l s d n h1 h2 h3 h4 h5 h6⟩
            · exact ⟨_, copy_err_destOverflow l s d n h1 h2 h3 h4 h5⟩
          · exact ⟨_, copy_err_srcLen l s d n h1 h2 h3 h4⟩
        · exact ⟨_, copy_err_srcOverflow l s d n h1 h2 h3⟩
      · exact ⟨_, copy_err_destIdx l s d n h1 h2⟩
    · exact ⟨_, copy_err_srcIdx l s d n h1⟩
  obtain ⟨e, he⟩ := herr
  exact ⟨⟨e, he⟩, copyPost_of_error l s d n e he,
    ⟨.srcLenOutOfBounds 7 2 6, by rfl⟩, by rfl⟩

theorem claim_C2_witness :
    (∃ e, copy ([0, 1, 2, 3, 4, 5] : List Nat) 2 1 7 = .error e) ∧
    copyPost ([0, 1, 2, 3, 4, 5] : List Nat) 2 1 7 = [0, 1, 2, 3, 4, 5] :=
  ((claim_C2 Nat [0, 1, 2, 3, 4, 5] 2 1 7
    (Or.inr (Or.inr (Or.inl (by decide))))).2).2

/-- C3: `write_bytes` over a region of length N with any byte value v
terminates, preserves the length, makes every element equal to v, and is a
no-op on the empty region. -/
theorem claim_C3 (l : List (Fin 256)) (v : Fin 256) :
    (write_bytes l v).length = l.length ∧ (∀ x ∈ write_bytes l v, x = v) ∧
    write_bytes [] v = [] := by
  refine ⟨by simp [write_bytes], ?_, by rfl⟩
  intro x hx
  exact List.eq_of_mem_replicate hx

theorem claim_C3_witness :
    (write_bytes [0, 0, 0, 0] 9).length = ([0, 0, 0, 0] : List (Fin 256)).length ∧
    (9 : Fin 256) = 9 ∧ write_bytes [] 9 = [] :=
  ⟨(claim_C3 [0, 0, 0, 0] 9).1, (claim_C3 [0, 0, 0, 0] 9).2.1 9 (by decide),
    (claim_C3 [0, 0, 0, 0] 9).2.2⟩

/-- C4 counterexample: on region `[0,0]` with src 0, dest 1, len USIZE_MAX,
both indices are in bounds and `dest_idx + len` overflows usize, yet the
abort diagnostic is the source length-bound message, not an
overflow-specific one: the claim as stated is false at this input. -/
theorem claim_C4_cex :
    (0 : Nat) < ([0, 0] : List Nat).length ∧
    (1 : Nat) < ([0, 0] : List Nat).length ∧
    USIZE_MAX < 1 + USIZE_MAX ∧
    copy ([0, 0] : List Nat) 0 1 USIZE_MAX =
      .error (.srcLenOutOfBounds USIZE_MAX 0 2) ∧
    CopyError.isOverflow (.srcLenOutOfBounds USIZE_MAX 0 2) = false := by
  refine ⟨by decide, by decide, by omega, ?_, by rfl⟩
  exact copy_err_srcLen ([0, 0] : List Nat) 0 1 USIZE_MAX (by decide)
    (by decide) (by omega) (by decide)

/-- C4 (amended): with both indices in bounds, whenever `src_idx + len` or
`dest_idx + len` overflows usize, `copy` aborts before any mutation; the
diagnostic is the overflow-specific one when the overflowing addition belongs
to the first check that fails in order: always for `src_idx + len`, and for
`dest_idx + len` when `src_idx + len` neither overflows nor exceeds the
length. A wrapped-around sum is never compared against the region length. -/
theorem claim_C4_amended (α : Type) (l : List α) (s d n : Nat)
    (h1 : s < l.length) (h2 : d < l.length) :
    ((USIZE_MAX < s + n ∨ USIZE_MAX < d + n) →
      ∃ e, copy l s d n = .error e ∧ copyPost l s d n = l) ∧
    (USIZE_MAX < s + n → copy l s d n = .error .srcOverflow) ∧
    (s + n ≤ USIZE_MAX → s + n ≤ l.length → USIZE_MAX < d + n →
      copy l s d n = .error .destOverflow) := by
  refine ⟨?_, ?_, ?_⟩
  · intro ho
    have herr : ∃ e, copy l s d n = .error e := by
      by_cases h3 : s + n ≤ USIZE_MAX
      · by_cases h4 : s + n ≤ l.length
        · have h5 : ¬ d + n ≤ USIZE_MAX := by
            rcases ho with ho | ho <;> omega
          exact ⟨_, copy_err_destOverflow l s d n h1 h2 h3 h4 h5⟩
        · exact ⟨_, copy_err_srcLen l s d n h1 h2 h3 h4⟩
      · exact ⟨_, copy_err_srcOverflow l s d n h1 h2 h3⟩
    obtain ⟨e, he⟩ := herr
    exact ⟨e, he, copyPost_of_error l s d n e he⟩
  · intro ho
    exact copy_err_srcOverflow l s d n h1 h2 (by omega)
  · intro h3 h4 ho
    exact copy_err_destOverflow l s d n h1 h2 h3 h4 (by omega)

theorem claim_C4_amended_witness :
    copy ([0, 0] : List Nat) 1 0 USIZE_MAX = .error CopyError.srcOverflow :=
  ((claim_C4_amended Nat [0, 0] 1 0 USIZE_MAX (by decide) (by decide)).2).1
    (by omega)

/-- C5: a zero-length copy whose start index (source or destination) equals
the region length still aborts, and with a diagnostic of the index-bounds
check, because the strict index check runs unconditionally before the length
check. -/
theorem claim_C5 (α : Type) (l : List α) (s d : Nat)
    (h : s = l.length ∨ d = l.length) :
    ∃ e, copy l s d 0 = .error e ∧ e.isIdxCheck = true := by
  by_cases h1 : s < l.length
  · have h2 : ¬ d < l.length := by
      rcases h with h | h <;> omega
    exact ⟨_, copy_err_destIdx l s d 0 h1 h2, rfl⟩
  · exact ⟨_, copy_err_srcIdx l s d 0 h1, rfl⟩

theorem claim_C5_witness :
    ∃ e, copy ([0, 1] : List Nat) 2 0 0 = .error e ∧ e.isIdxCheck = true :=
  claim_C5 Nat [0, 1] 2 0 (Or.inl rfl)

/-- C6: whenever source and destination indices coincide and all checks pass,
`copy` succeeds and leaves the region byte-for-byte unchanged. -/
theorem claim_C6 (α : Type) (l : List α) (s n : Nat)
    (h1 : s < l.length) (h2 : s + n ≤ l.length) (h3 : s + n ≤ USIZE_MAX) :
    copy l s s n = .ok l := by
  rw [copy_ok_of_checks l s s n h1 h1 h3 h2 h3 h2, ptrCopy_same]

theorem claim_C6_witness : copy ([0, 1, 2] : List Nat) 1 1 2 = .ok [0, 1, 2] :=
  claim_C6 Nat [0, 1, 2] 1 2 (by decide) (by decide) (by decide)

/-- C7: a copy of length zero with both start indices strictly in bounds
succeeds and leaves the region unchanged. The hypothesis that the region
length fits in usize is a Rust slice invariant. -/
theorem claim_C7 (α : Type) (l : List α) (s d : Nat)
    (hN : l.length ≤ USIZE_MAX) (h1 : s < l.length) (h2 : d < l.length) :
    copy l s d 0 = .ok l := by
  rw [copy_ok_of_checks l s d 0 h1 h2 (by omega) (by omega) (by omega)
    (by omega), ptrCopy_len_zero]

theorem claim_C7_witness : copy ([7, 8] : List Nat) 0 1 0 = .ok [7, 8] :=
  claim_C7 Nat [7, 8] 0 1 (by decide) (by decide) (by decide)

/-- C8: the four precondition checks of `copy` run in the fixed order source
index, destination index, source end bound (overflow then length),
destination end bound (overflow then length); when several are violated the
diagnostic names the first violated check in that order, and any abort
happens before memory is touched. -/
theorem claim_C8 (α : Type) (l : List α) (s d n : Nat) :
    (¬ s < l.length → copy l s d n = .error (.srcIdxOutOfBounds s l.length)) ∧
    (s < l.length → ¬ d < l.length →
      copy l s d n = .error (.destIdxOutOfBounds d l.length)) ∧
    (s < l.length → d < l.length → ¬ s + n ≤ USIZE_MAX →
      copy l s d n = .error .srcOverflow) ∧
    (s < l.length → d < l.length → s + n ≤ USIZE_MAX → ¬ s + n ≤ l.length →
      copy l s d n = .error (.srcLenOutOfBounds n s l.length)) ∧
    (s < l.length → d < l.length → s + n ≤ USIZE_MAX → s + n ≤ l.length →
      ¬ d + n ≤ USIZE_MAX → copy l s d n = .error .destOverflow) ∧
    (s < l.length → d < l.length → s + n ≤ USIZE_MAX → s + n ≤ l.length →
      d + n ≤ USIZE_MAX → ¬ d + n ≤ l.length →
      copy l s d n = .error (.destLenOutOfBounds n d l.length)) ∧
    (∀ e, copy l s d n = .error e → copyPost l s d n = l) :=
  ⟨copy_err_srcIdx l s d n, copy_err_destIdx l s d n,
    copy_err_srcOverflow l s d n, copy_err_srcLen l s d n,
    copy_err_destOverflow l s d n, copy_err_destLen l s d n,
    fun e he => copyPost_of_error l s d n e he⟩

theorem claim_C8_witness :
    copy ([0] : List Nat) 5 9 3 = .error (CopyError.srcIdxOutOfBounds 5 1) :=
  (claim_C8 Nat [0] 5 9 3).1 (by decide)

/-- C9: on an empty region every call to `copy` aborts at the source index
check, whatever the arguments; no argument combination succeeds. -/
theorem claim_C9 (α : Type) (s d n : Nat) :
    copy ([] : List α) s d n = .error (.srcIdxOutOfBounds s 0) :=
  copy_err_srcIdx [] s d n (by simp)

/-- C10: the result of `write_bytes` depends only on the region length and
the fill byte, not on the prior contents. -/
theorem claim_C10 (l1 l2 : List (Fin 256)) (v : Fin 256)
    (h : l1.length = l2.length) : write_bytes l1 v = write_bytes l2 v := by
  simp [write_bytes, h]

theorem claim_C10_witness :
    write_bytes [0, 1] 9 = write_bytes [5, 7] 9 :=
  claim_C10 [0, 1] [5, 7] 9 (by decide)

end Safemem
